import Mathlib

/-!
Shallow embedding of the telegram-notifications service (Rust sources:
src/api.rs, src/telegram.rs, src/handlers.rs, src/main.rs).

Modelling conventions:
* JSON values are modelled by the inductive `Json`; integers are `Int`.
* The provider interaction is modelled by passing the parsed provider
  envelope (`TelegramResponse`) as an explicit argument; transport-level
  failures (network errors, unparseable bodies) are outside this embedding.
* Handlers return a result value together with the list of outbound
  `sendMessage` requests performed (resp. a flag whether `getMe` was
  contacted), so "no outbound call" claims are statable.
-/

/-- A minimal JSON value model (mirrors the role of serde_json::Value). -/
inductive Json where
  | null : Json
  | bool (b : Bool) : Json
  | num (n : Int) : Json
  | str (s : String) : Json
  | arr (xs : List Json) : Json
  | obj (fields : List (String × Json)) : Json

/-- serde_json::Value::get on an object: look the key up; None on non-objects. -/
def Json.get (j : Json) (key : String) : Option Json :=
  match j with
  | .obj fields => fields.lookup key
  | _ => none

/-- serde_json::Value::as_i64: the integer payload of a number, else None. -/
def Json.as_i64 : Json → Option Int
  | .num n => some n
  | _ => none

/-- serde_json::Value::as_str: the string payload, else None. -/
def Json.as_str : Json → Option String
  | .str s => some s
  | _ => none

/-- src/api.rs: SendNotificationRequest (the inbound /notify body). -/
structure SendNotificationRequest where
  message : String
  chat_id : Option String
  parse_mode : Option String
  disable_notification : Option Bool
deriving DecidableEq

/-- src/api.rs: SendNotificationResponse. -/
structure SendNotificationResponse where
  success : Bool
  message : String
  telegram_message_id : Option Int
deriving DecidableEq

/-- src/api.rs: HealthResponse. -/
structure HealthResponse where
  status : String
  service : String
  version : String
  bot_verified : Bool
  bot_username : Option String
deriving DecidableEq

/-- src/api.rs: ErrorResponse. -/
structure ErrorResponse where
  success : Bool
  error : String
  code : Option String
deriving DecidableEq

/-- src/api.rs: ErrorResponse::with_code. -/
def ErrorResponse.with_code (error code : String) : ErrorResponse :=
  ⟨false, error, some code⟩

/-- src/telegram.rs: SendMessageRequest (the outbound sendMessage body). -/
structure SendMessageRequest where
  chat_id : String
  text : String
  parse_mode : Option String
  disable_notification : Option Bool
deriving DecidableEq

/-- src/telegram.rs: TelegramResponse, the provider envelope. -/
structure TelegramResponse where
  ok : Bool
  result : Option Json
  description : Option String
  error_code : Option Int

/-- Serde serialization of SendMessageRequest: both optional fields carry
skip_serializing_if Option::is_none, so a None field is omitted from the
wire payload entirely. The payload is modelled as the ordered field list
of the emitted JSON object. -/
def serializeSendMessageRequest (r : SendMessageRequest) : List (String × Json) :=
  [("chat_id", Json.str r.chat_id), ("text", Json.str r.text)]
    ++ (match r.parse_mode with
        | some p => [("parse_mode", Json.str p)]
        | none => [])
    ++ (match r.disable_notification with
        | some b => [("disable_notification", Json.bool b)]
        | none => [])

/-- src/telegram.rs, send_message_advanced lines 55-64: the request struct
built from the arguments; disable_notification is Some(true) when the flag
is true and None otherwise. -/
def buildSendMessageRequest (chat_id message : String) (parse_mode : Option String)
    (disable_notification : Bool) : SendMessageRequest :=
  ⟨chat_id, message, parse_mode,
    if disable_notification then some true else none⟩

/-- Rust Debug formatting of Option i32, as used by the {:?} placeholder. -/
def formatOptionInt : Option Int → String
  | some n => "Some(" ++ toString n ++ ")"
  | none => "None"

/-- src/telegram.rs lines 81-91 and 104-120: the anyhow error message
produced for an envelope with ok == false, shared verbatim by
send_message_advanced and get_me. -/
def telegramErrorMessage (resp : TelegramResponse) : String :=
  "Telegram API error: " ++ resp.description.getD "Unknown error"
    ++ " (code: " ++ formatOptionInt resp.error_code ++ ")"

/-- src/telegram.rs: send_message_advanced, modelled on the parsed envelope
the provider returns: an ok == false envelope becomes an error carrying
telegramErrorMessage, an ok == true envelope is returned unchanged. -/
def send_message_advanced (chat_id message : String) (parse_mode : Option String)
    (disable_notification : Bool) (env : TelegramResponse) :
    Except String TelegramResponse :=
  if !env.ok then
    Except.error (telegramErrorMessage env)
  else
    Except.ok env

/-- src/telegram.rs: send_message delegates to send_message_advanced with
parse_mode Some("Markdown") and disable_notification false. -/
def send_message (chat_id message : String) (env : TelegramResponse) :
    Except String TelegramResponse :=
  send_message_advanced chat_id message (some "Markdown") false env

/-- src/telegram.rs: get_me, same envelope interpretation as the send path. -/
def get_me (env : TelegramResponse) : Except String TelegramResponse :=
  if !env.ok then
    Except.error (telegramErrorMessage env)
  else
    Except.ok env

/-- src/handlers.rs: extract_message_id. -/
def extract_message_id (result : Option Json) : Option Int :=
  match result with
  | none => none
  | some j =>
    match j.get "message_id" with
    | none => none
    | some v => v.as_i64

/-- src/handlers.rs health: the username extraction
result.get("username").and_then(as_str) applied to the optional payload. -/
def extractUsername (result : Option Json) : Option String :=
  match result with
  | none => none
  | some j =>
    match j.get "username" with
    | none => none
    | some v => v.as_str

/-- The crate version baked in via CARGO_PKG_VERSION; the manifest is not
among the sources and no claim depends on the value, so it is an arbitrary
named constant that the statements mention symbolically. -/
def cargoPkgVersion : String := "0.1.0"

/-- A handler result: Ok(Json body) or Err((StatusCode, Json error body)). -/
inductive HandlerResult (α : Type) where
  | ok (body : α) : HandlerResult α
  | err (status : Nat) (body : ErrorResponse) : HandlerResult α
deriving DecidableEq

/-- Outcome of the notify handler: the HTTP-level result together with the
outbound sendMessage requests that were issued. -/
structure NotifyOutcome where
  response : HandlerResult SendNotificationResponse
  calls : List SendMessageRequest
deriving DecidableEq

/-- src/handlers.rs: notify. Parameters: the configured default chat id,
the per-call TELEGRAM_NOTIFICATIONS_SKIP_VALIDATION toggle, the
deserialized request, and the envelope the provider would return for the
send. Records the outbound request list so absence of calls is provable. -/
def notify (default_chat_id : String) (skip_validation : Bool)
    (request : SendNotificationRequest) (provider : TelegramResponse) :
    NotifyOutcome :=
  if request.message = "" then
    ⟨HandlerResult.err 400
      (ErrorResponse.with_code "Message cannot be empty" "EMPTY_MESSAGE"), []⟩
  else
    let chat_id := request.chat_id.getD default_chat_id
    if skip_validation then
      ⟨HandlerResult.ok ⟨true, "Notification sent successfully (test mode)", some 42⟩, []⟩
    else
      let req := buildSendMessageRequest chat_id request.message request.parse_mode
        (request.disable_notification.getD false)
      match send_message_advanced chat_id request.message request.parse_mode
          (request.disable_notification.getD false) provider with
      | Except.ok response =>
        ⟨HandlerResult.ok
          ⟨true, "Notification sent successfully", extract_message_id response.result⟩,
          [req]⟩
      | Except.error e =>
        ⟨HandlerResult.err 502
          (ErrorResponse.with_code ("Failed to send notification: " ++ e)
            "TELEGRAM_API_ERROR"),
          [req]⟩

/-- Outcome of the health handler: the result plus whether getMe was called. -/
structure HealthOutcome where
  response : HandlerResult HealthResponse
  contacted : Bool
deriving DecidableEq

/-- src/handlers.rs: health. In skip-validation (test) mode it answers a
placeholder identity without contacting the provider; otherwise it calls
get_me and maps success to a verified healthy status with the extracted
username, and failure to 503 BOT_VERIFICATION_FAILED. -/
def health (skip_validation : Bool) (provider : TelegramResponse) : HealthOutcome :=
  if skip_validation then
    ⟨HandlerResult.ok
      ⟨"healthy", "telegram-notifications", cargoPkgVersion, false, some "test-bot"⟩,
      false⟩
  else
    match get_me provider with
    | Except.ok response =>
      ⟨HandlerResult.ok
        ⟨"healthy", "telegram-notifications", cargoPkgVersion, true,
          extractUsername response.result⟩,
        true⟩
    | Except.error _ =>
      ⟨HandlerResult.err 503
        (ErrorResponse.with_code "Bot verification failed" "BOT_VERIFICATION_FAILED"),
        true⟩

/-- Serde deserialization of an optional string field: absent or null gives
None, a string gives Some, any other value is a deserialization error. -/
def getOptString (j : Json) (key : String) : Option (Option String) :=
  match j.get key with
  | none => some none
  | some Json.null => some none
  | some (Json.str s) => some (some s)
  | some _ => none

/-- Serde deserialization of an optional bool field. -/
def getOptBool (j : Json) (key : String) : Option (Option Bool) :=
  match j.get key with
  | none => some none
  | some Json.null => some none
  | some (Json.bool b) => some (some b)
  | some _ => none

/-- Serde deserialization of src/api.rs SendNotificationRequest: message is
a required string (its absence is a deserialization failure), the other
three fields are optional. -/
def deserializeSendNotificationRequest (j : Json) : Option SendNotificationRequest :=
  match j with
  | Json.obj _ =>
    match j.get "message" with
    | some (Json.str m) =>
      match getOptString j "chat_id" with
      | none => none
      | some chat_id =>
        match getOptString j "parse_mode" with
        | none => none
        | some parse_mode =>
          match getOptBool j "disable_notification" with
          | none => none
          | some disable_notification =>
            some ⟨m, chat_id, parse_mode, disable_notification⟩
    | _ => none
  | _ => none

/-- The /notify endpoint as seen from the wire: axum's JSON extractor
rejects an undeserializable body with 422 before the handler runs. -/
inductive NotifyEndpointResult where
  | rejected (status : Nat) : NotifyEndpointResult
  | handled (r : HandlerResult SendNotificationResponse) : NotifyEndpointResult
deriving DecidableEq

/-- Endpoint-level outcome: result plus outbound calls. -/
structure NotifyEndpointOutcome where
  response : NotifyEndpointResult
  calls : List SendMessageRequest
deriving DecidableEq

/-- The full inbound pipeline for POST /notify (and its alias /send):
deserialize the body, on failure answer 422 with no handler involvement
and no outbound call, otherwise run notify. -/
def notifyEndpoint (default_chat_id : String) (skip_validation : Bool)
    (body : Json) (provider : TelegramResponse) : NotifyEndpointOutcome :=
  match deserializeSendNotificationRequest body with
  | none => ⟨NotifyEndpointResult.rejected 422, []⟩
  | some req =>
    let o := notify default_chat_id skip_validation req provider
    ⟨NotifyEndpointResult.handled o.response, o.calls⟩

/-- Outcome of the one-shot CLI mode: the process result plus the outbound
sendMessage requests issued. -/
structure CliOutcome where
  result : Except String Unit
  calls : List SendMessageRequest

/-- src/main.rs: run_cli_mode sends config.message to config.chat_id via
TelegramBot::send_message and propagates its error. -/
def run_cli_mode (chat_id message : String) (env : TelegramResponse) : CliOutcome :=
  match send_message chat_id message env with
  | Except.ok _ => ⟨Except.ok (), [buildSendMessageRequest chat_id message (some "Markdown") false]⟩
  | Except.error e => ⟨Except.error e, [buildSendMessageRequest chat_id message (some "Markdown") false]⟩

/-- Whether needle is a prefix of hay (over character lists). -/
def startsWith : List Char → List Char → Bool
  | [], _ => true
  | _ :: _, [] => false
  | a :: as, b :: bs => a == b && startsWith as bs

/-- Whether needle occurs contiguously somewhere in hay. -/
def occursIn (needle : List Char) : List Char → Bool
  | [] => needle.isEmpty
  | c :: rest => startsWith needle (c :: rest) || occursIn needle rest

/-- Substring containment on strings, used to state the "the surfaced
message contains the provider text" claims. -/
def strContains (hay needle : String) : Bool :=
  occursIn needle.data hay.data

/-- Sample provider envelope: a successful sendMessage answer whose payload
carries message_id 42 (as in the repository tests). -/
def envSendOk : TelegramResponse :=
  ⟨true, some (Json.obj [("message_id", Json.num 42), ("date", Json.num 1234567890)]),
    none, none⟩

/-- Sample provider envelope: the chat-not-found rejection used in the
repository tests. -/
def envChatNotFound : TelegramResponse :=
  ⟨false, none, some "Bad Request: chat not found", some 400⟩

/-- Sample provider envelope: a successful getMe answer with username
test_bot (as in the repository tests). -/
def envGetMeOk : TelegramResponse :=
  ⟨true, some (Json.obj [("id", Json.num 123456789), ("username", Json.str "test_bot")]),
    none, none⟩

theorem startsWith_self_append (needle post : List Char) :
    startsWith needle (needle ++ post) = true := by
  induction needle with
  | nil => rfl
  | cons a as ih => simp [startsWith, ih]

theorem occursIn_of_startsWith (needle hay : List Char)
    (h : startsWith needle hay = true) : occursIn needle hay = true := by
  cases hay with
  | nil =>
    cases needle with
    | nil => rfl
    | cons a as => simp [startsWith] at h
  | cons c rest => simp [occursIn, h]

theorem occursIn_append (pre needle post : List Char) :
    occursIn needle (pre ++ needle ++ post) = true := by
  induction pre with
  | nil =>
    simp only [List.nil_append]
    exact occursIn_of_startsWith needle (needle ++ post) (startsWith_self_append needle post)
  | cons c cs ih =>
    simp only [List.cons_append, occursIn, Bool.or_eq_true]
    right
    simpa [List.append_assoc] using ih

theorem strContains_intro (hay needle : String) (pre post : List Char)
    (h : hay.data = pre ++ needle.data ++ post) : strContains hay needle = true := by
  rw [strContains, h]
  exact occursIn_append pre needle.data post

/-- C1: an inbound request with an empty message makes notify answer the
400 EMPTY_MESSAGE failure with no outbound call; for a non-empty message
this validation step passes, i.e. the handler never produces the
EMPTY_MESSAGE error. -/
theorem notify_empty_message_validation (dflt : String) (skip : Bool)
    (req : SendNotificationRequest) (prov : TelegramResponse) :
    (req.message = "" →
      notify dflt skip req prov =
        ⟨HandlerResult.err 400
          (ErrorResponse.with_code "Message cannot be empty" "EMPTY_MESSAGE"), []⟩) ∧
    (req.message ≠ "" →
      ∀ s e, (notify dflt skip req prov).response = HandlerResult.err s e →
        e.code ≠ some "EMPTY_MESSAGE") := by
  constructor
  · intro h
    simp [notify, h]
  · intro h s e hre
    unfold notify at hre
    rw [if_neg h] at hre
    cases skip with
    | true => simp at hre
    | false =>
      cases hok : prov.ok with
      | true => simp [send_message_advanced, hok] at hre
      | false =>
        simp [send_message_advanced, hok] at hre
        rw [← hre.2]
        simp [ErrorResponse.with_code]

/-- Witness for C1 at concrete inputs: the empty message is rejected with
EMPTY_MESSAGE and no call, and a non-empty message that the provider
rejects yields an error whose code is not EMPTY_MESSAGE. -/
theorem notify_empty_message_validation_witness :
    (notify "987654321" false ⟨"", none, none, none⟩ envChatNotFound =
      ⟨HandlerResult.err 400
        (ErrorResponse.with_code "Message cannot be empty" "EMPTY_MESSAGE"), []⟩) ∧
    (ErrorResponse.with_code
        ("Failed to send notification: " ++ telegramErrorMessage envChatNotFound)
        "TELEGRAM_API_ERROR").code ≠ some "EMPTY_MESSAGE" :=
  ⟨(notify_empty_message_validation "987654321" false ⟨"", none, none, none⟩
      envChatNotFound).1 rfl,
   (notify_empty_message_validation "987654321" false ⟨"hi", none, none, none⟩
      envChatNotFound).2 (by decide) 502 _ (by rfl)⟩

/-- C2 counterexample: with default destination "default" and a request
whose chat_id is present but empty, the outbound call goes to the empty
destination, not to the default as the claim states. -/
theorem notify_empty_chat_id_counterexample :
    ((notify "default" false ⟨"hi", some "", none, none⟩ envSendOk).calls.map
      (fun r => r.chat_id)) = [""] ∧
    ¬ ((notify "default" false ⟨"hi", some "", none, none⟩ envSendOk).calls.map
      (fun r => r.chat_id)) = ["default"] := by
  constructor
  · rfl
  · intro h
    simp [notify, send_message_advanced, envSendOk, buildSendMessageRequest] at h

/-- C2 amended: the destination of the outbound call is request.chat_id
whenever that field is present (even when it is the empty string), and the
configured default destination only when the field is absent. -/
theorem notify_destination_resolution (dflt : String)
    (req : SendNotificationRequest) (prov : TelegramResponse)
    (h : req.message ≠ "") :
    (notify dflt false req prov).calls.map (fun r => r.chat_id) =
      [match req.chat_id with
       | some c => c
       | none => dflt] := by
  unfold notify
  rw [if_neg h]
  cases hok : prov.ok with
  | true =>
    simp [send_message_advanced, hok, buildSendMessageRequest]
    cases req.chat_id <;> rfl
  | false =>
    simp [send_message_advanced, hok, buildSendMessageRequest]
    cases req.chat_id <;> rfl

/-- Witness for the amended C2: a present non-empty chat_id overrides the
default, an absent chat_id falls back to the default. -/
theorem notify_destination_resolution_witness :
    (notify "default" false ⟨"hi", some "42", none, none⟩ envSendOk).calls.map
      (fun r => r.chat_id) = ["42"] ∧
    (notify "default" false ⟨"hi", none, none, none⟩ envSendOk).calls.map
      (fun r => r.chat_id) = ["default"] :=
  ⟨notify_destination_resolution "default" ⟨"hi", some "42", none, none⟩
      envSendOk (by decide),
   notify_destination_resolution "default" ⟨"hi", none, none, none⟩
      envSendOk (by decide)⟩

/-- C3: across the send and health paths, a success result always has
success = true and, for a real (non-simulated) send, is only produced when
the provider envelope has ok = true; an envelope with ok = false never
becomes a success on either path, and on the health path it surfaces as
the 503 BOT_VERIFICATION_FAILED failure. -/
theorem success_failure_invariant (dflt : String) (skip : Bool)
    (req : SendNotificationRequest) (prov : TelegramResponse) :
    (∀ r, (notify dflt skip req prov).response = HandlerResult.ok r →
      r.success = true) ∧
    (skip = false → prov.ok = false →
      ∀ r, (notify dflt skip req prov).response ≠ HandlerResult.ok r) ∧
    (∀ hr, (health skip prov).response = HandlerResult.ok hr →
      skip = false → prov.ok = true) ∧
    (skip = false → prov.ok = false →
      (health skip prov).response =
        HandlerResult.err 503
          (ErrorResponse.with_code "Bot verification failed"
            "BOT_VERIFICATION_FAILED")) := by
  refine ⟨?_, ?_, ?_, ?_⟩
  · intro r hr
    unfold notify at hr
    by_cases hm : req.message = ""
    · rw [if_pos hm] at hr
      simp at hr
    · rw [if_neg hm] at hr
      cases skip with
      | true =>
        simp at hr
        rw [← hr]
      | false =>
        cases hok : prov.ok with
        | true =>
          simp [send_message_advanced, hok] at hr
          rw [← hr]
        | false => simp [send_message_advanced, hok] at hr
  · intro hskip hok r
    subst hskip
    unfold notify
    by_cases hm : req.message = ""
    · rw [if_pos hm]
      simp
    · rw [if_neg hm]
      simp [send_message_advanced, hok]
  · intro hr hhr hskip
    subst hskip
    unfold health at hhr
    simp only [Bool.false_eq_true, if_false] at hhr
    cases hok : prov.ok with
    | true => rfl
    | false => simp [get_me, hok] at hhr
  · intro hskip hok
    subst hskip
    unfold health
    simp [get_me, hok]

/-- Witness for C3: with a failing provider envelope and simulate off, a
concrete notify call and a concrete health call both end in failure, and
the health failure is the 503 BOT_VERIFICATION_FAILED error. -/
theorem success_failure_invariant_witness :
    ((notify "d" false ⟨"hi", none, none, none⟩ envChatNotFound).response ≠
      HandlerResult.ok ⟨true, "Notification sent successfully", some 42⟩) ∧
    (health false envChatNotFound).response =
      HandlerResult.err 503
        (ErrorResponse.with_code "Bot verification failed"
          "BOT_VERIFICATION_FAILED") :=
  ⟨(success_failure_invariant "d" false ⟨"hi", none, none, none⟩
      envChatNotFound).2.1 rfl rfl ⟨true, "Notification sent successfully", some 42⟩,
   (success_failure_invariant "d" false ⟨"hi", none, none, none⟩
      envChatNotFound).2.2.2 rfl rfl⟩

/-- C4: on any envelope with ok = false, the send operation and the
verify-identity operation fail with the very same error message, built by
the shared classification telegramErrorMessage; that message contains the
envelope description verbatim and the decimal rendering of the numeric
error code verbatim. -/
theorem provider_error_classification (chat_id message : String)
    (parse_mode : Option String) (silent : Bool) (env : TelegramResponse)
    (hok : env.ok = false) :
    send_message_advanced chat_id message parse_mode silent env =
      Except.error (telegramErrorMessage env) ∧
    get_me env = Except.error (telegramErrorMessage env) ∧
    (∀ desc, env.description = some desc →
      strContains (telegramErrorMessage env) desc = true) ∧
    (∀ code, env.error_code = some code →
      strContains (telegramErrorMessage env) (toString code) = true) := by
  refine ⟨?_, ?_, ?_, ?_⟩
  · simp [send_message_advanced, hok]
  · simp [get_me, hok]
  · intro desc hdesc
    refine strContains_intro _ _ "Telegram API error: ".data
      (" (code: " ++ formatOptionInt env.error_code ++ ")").data ?_
    simp [telegramErrorMessage, hdesc, String.data_append, List.append_assoc]
  · intro code hcode
    refine strContains_intro _ _
      ("Telegram API error: " ++ env.description.getD "Unknown error"
        ++ " (code: " ++ "Some(").data "))".data ?_
    simp [telegramErrorMessage, hcode, formatOptionInt, String.data_append,
      List.append_assoc]

/-- Witness for C4 at the chat-not-found envelope: both operations fail
with the same message, which contains the description and the code 400. -/
theorem provider_error_classification_witness :
    send_message_advanced "987654321" "hi" none false envChatNotFound =
      Except.error (telegramErrorMessage envChatNotFound) ∧
    get_me envChatNotFound = Except.error (telegramErrorMessage envChatNotFound) ∧
    strContains (telegramErrorMessage envChatNotFound)
      "Bad Request: chat not found" = true ∧
    strContains (telegramErrorMessage envChatNotFound) "400" = true :=
  ⟨(provider_error_classification "987654321" "hi" none false envChatNotFound rfl).1,
   (provider_error_classification "987654321" "hi" none false envChatNotFound rfl).2.1,
   (provider_error_classification "987654321" "hi" none false envChatNotFound rfl).2.2.1
      "Bad Request: chat not found" rfl,
   (provider_error_classification "987654321" "hi" none false envChatNotFound rfl).2.2.2
      400 rfl⟩

/-- C5: on the real (non-simulated) send path with a non-empty message, a
provider envelope with ok = true maps to a success whose message id is
extract_message_id of the payload (a payload field message_id = n yields
telegram_message_id = some n), and an envelope with ok = false maps to the
502 failure whose surfaced message contains the provider description and
error code verbatim. -/
theorem real_send_result_mapping (dflt : String)
    (req : SendNotificationRequest) (prov : TelegramResponse)
    (h : req.message ≠ "") :
    (prov.ok = true →
      (notify dflt false req prov).response =
        HandlerResult.ok
          ⟨true, "Notification sent successfully", extract_message_id prov.result⟩ ∧
      (∀ (j : Json) (n : Int), prov.result = some j →
        j.get "message_id" = some (Json.num n) →
        extract_message_id prov.result = some n)) ∧
    (prov.ok = false →
      (notify dflt false req prov).response =
        HandlerResult.err 502
          (ErrorResponse.with_code
            ("Failed to send notification: " ++ telegramErrorMessage prov)
            "TELEGRAM_API_ERROR") ∧
      (∀ desc, prov.description = some desc →
        strContains ("Failed to send notification: " ++ telegramErrorMessage prov)
          desc = true) ∧
      (∀ code, prov.error_code = some code →
        strContains ("Failed to send notification: " ++ telegramErrorMessage prov)
          (toString code) = true)) := by
  constructor
  · intro hok
    constructor
    · unfold notify
      rw [if_neg h]
      simp [send_message_advanced, hok]
    · intro j n hj hget
      simp [extract_message_id, hj, hget, Json.as_i64]
  · intro hok
    refine ⟨?_, ?_, ?_⟩
    · unfold notify
      rw [if_neg h]
      simp [send_message_advanced, hok]
    · intro desc hdesc
      refine strContains_intro _ _
        ("Failed to send notification: " ++ "Telegram API error: ").data
        (" (code: " ++ formatOptionInt prov.error_code ++ ")").data ?_
      simp [telegramErrorMessage, hdesc, String.data_append, List.append_assoc]
    · intro code hcode
      refine strContains_intro _ _
        ("Failed to send notification: " ++ "Telegram API error: "
          ++ prov.description.getD "Unknown error" ++ " (code: " ++ "Some(").data
        "))".data ?_
      simp [telegramErrorMessage, hcode, formatOptionInt, String.data_append,
        List.append_assoc]

/-- Witness for C5: the repository-test envelopes. message_id 42 surfaces
as telegram_message_id 42 on success, and the chat-not-found rejection
surfaces a message containing the description and 400. -/
theorem real_send_result_mapping_witness :
    (notify "987654321" false ⟨"hi", none, none, none⟩ envSendOk).response =
      HandlerResult.ok ⟨true, "Notification sent successfully", some 42⟩ ∧
    strContains
      ("Failed to send notification: " ++ telegramErrorMessage envChatNotFound)
      "Bad Request: chat not found" = true ∧
    strContains
      ("Failed to send notification: " ++ telegramErrorMessage envChatNotFound)
      "400" = true :=
  ⟨((real_send_result_mapping "987654321" ⟨"hi", none, none, none⟩ envSendOk
      (by decide)).1 rfl).1,
   ((real_send_result_mapping "987654321" ⟨"hi", none, none, none⟩ envChatNotFound
      (by decide)).2 rfl).2.1 "Bad Request: chat not found" rfl,
   ((real_send_result_mapping "987654321" ⟨"hi", none, none, none⟩ envChatNotFound
      (by decide)).2 rfl).2.2 400 rfl⟩

/-- C6: the serialized wire payload always carries chat_id and text;
parse_mode appears exactly when a format hint is present (with its string
value, never null), and disable_notification appears exactly when the
silent flag is true (with value true, never false or null). -/
theorem wire_serialization_omits_optional_fields (chat_id message : String)
    (parse_mode : Option String) (silent : Bool) :
    ((serializeSendMessageRequest
        (buildSendMessageRequest chat_id message parse_mode silent)).lookup
      "chat_id" = some (Json.str chat_id)) ∧
    ((serializeSendMessageRequest
        (buildSendMessageRequest chat_id message parse_mode silent)).lookup
      "text" = some (Json.str message)) ∧
    ((serializeSendMessageRequest
        (buildSendMessageRequest chat_id message parse_mode silent)).lookup
      "parse_mode" = Option.map Json.str parse_mode) ∧
    (silent = true →
      (serializeSendMessageRequest
          (buildSendMessageRequest chat_id message parse_mode silent)).lookup
        "disable_notification" = some (Json.bool true)) ∧
    (silent = false →
      (serializeSendMessageRequest
          (buildSendMessageRequest chat_id message parse_mode silent)).lookup
        "disable_notification" = none) := by
  cases parse_mode <;> cases silent <;>
    refine ⟨rfl, rfl, rfl, ?_, ?_⟩ <;> intro hs <;> first | rfl | simp at hs

/-- Witness for C6 at a concrete request with a hint and silent = true, and
at one with no hint and silent = false. -/
theorem wire_serialization_omits_optional_fields_witness :
    ((serializeSendMessageRequest
        (buildSendMessageRequest "987654321" "hi" (some "Markdown") true)).lookup
      "disable_notification" = some (Json.bool true)) ∧
    ((serializeSendMessageRequest
        (buildSendMessageRequest "987654321" "hi" none false)).lookup
      "disable_notification" = none) ∧
    ((serializeSendMessageRequest
        (buildSendMessageRequest "987654321" "hi" none false)).lookup
      "parse_mode" = none) :=
  ⟨(wire_serialization_omits_optional_fields "987654321" "hi" (some "Markdown")
      true).2.2.2.1 rfl,
   (wire_serialization_omits_optional_fields "987654321" "hi" none
      false).2.2.2.2 rfl,
   (wire_serialization_omits_optional_fields "987654321" "hi" none false).2.2.1⟩

/-- C7: with simulate (skip-validation) mode active and a valid message,
notify performs zero outbound calls and answers a success carrying the
fixed placeholder id 42 and the test-mode message; that message contains
the simulate-mode marker, which the real-send success message lacks. -/
theorem simulate_mode_no_outbound (dflt : String)
    (req : SendNotificationRequest) (prov : TelegramResponse)
    (h : req.message ≠ "") :
    notify dflt true req prov =
      ⟨HandlerResult.ok
        ⟨true, "Notification sent successfully (test mode)", some 42⟩, []⟩ ∧
    strContains "Notification sent successfully (test mode)" "(test mode)" = true ∧
    strContains "Notification sent successfully" "(test mode)" = false := by
  refine ⟨?_, by decide, by decide⟩
  unfold notify
  rw [if_neg h]
  simp

/-- Witness for C7 at the spec example: sending message "hi" in simulate
mode, against an envelope that would reject it, still succeeds with the
placeholder id and no outbound call. -/
theorem simulate_mode_no_outbound_witness :
    notify "987654321" true ⟨"hi", none, none, none⟩ envChatNotFound =
      ⟨HandlerResult.ok
        ⟨true, "Notification sent successfully (test mode)", some 42⟩, []⟩ ∧
    strContains "Notification sent successfully (test mode)" "(test mode)" = true :=
  ⟨(simulate_mode_no_outbound "987654321" ⟨"hi", none, none, none⟩ envChatNotFound
      (by decide)).1,
   (simulate_mode_no_outbound "987654321" ⟨"hi", none, none, none⟩ envChatNotFound
      (by decide)).2.1⟩

/-- C8: the health check answers the verified healthy status with the
username extracted from the provider payload when verify-identity
succeeds (username test_bot in the payload yields bot_username test_bot),
answers the 503 BOT_VERIFICATION_FAILED failure when it fails (never an
unhandled fault), and in simulate mode answers the deterministic
placeholder identity without contacting the provider. -/
theorem health_check_behaviour (prov : TelegramResponse) :
    (health true prov =
      ⟨HandlerResult.ok
        ⟨"healthy", "telegram-notifications", cargoPkgVersion, false, some "test-bot"⟩,
        false⟩) ∧
    (prov.ok = true →
      health false prov =
        ⟨HandlerResult.ok
          ⟨"healthy", "telegram-notifications", cargoPkgVersion, true,
            extractUsername prov.result⟩,
          true⟩ ∧
      (∀ (j : Json) (u : String), prov.result = some j →
        j.get "username" = some (Json.str u) →
        extractUsername prov.result = some u)) ∧
    (prov.ok = false →
      health false prov =
        ⟨HandlerResult.err 503
          (ErrorResponse.with_code "Bot verification failed"
            "BOT_VERIFICATION_FAILED"),
          true⟩) := by
  refine ⟨rfl, ?_, ?_⟩
  · intro hok
    constructor
    · unfold health
      simp [get_me, hok]
    · intro j u hj hget
      simp [extractUsername, hj, hget, Json.as_str]
  · intro hok
    unfold health
    simp [get_me, hok]

/-- Witness for C8: the repository-test getMe payload with username
test_bot yields a verified healthy status naming test_bot, and the failing
envelope yields the 503 BOT_VERIFICATION_FAILED status. -/
theorem health_check_behaviour_witness :
    health false envGetMeOk =
      ⟨HandlerResult.ok
        ⟨"healthy", "telegram-notifications", cargoPkgVersion, true, some "test_bot"⟩,
        true⟩ ∧
    health false envChatNotFound =
      ⟨HandlerResult.err 503
        (ErrorResponse.with_code "Bot verification failed"
          "BOT_VERIFICATION_FAILED"),
        true⟩ :=
  ⟨((health_check_behaviour envGetMeOk).2.1 rfl).1,
   (health_check_behaviour envChatNotFound).2.2 rfl⟩

/-- C9: an inbound body that is a JSON object with no message field at all
fails deserialization, so the endpoint rejects it (axum answers 422)
before the handler runs and no outbound call to the provider is made. -/
theorem missing_message_field_rejected (dflt : String) (skip : Bool)
    (fields : List (String × Json)) (prov : TelegramResponse)
    (h : fields.lookup "message" = none) :
    notifyEndpoint dflt skip (Json.obj fields) prov =
      ⟨NotifyEndpointResult.rejected 422, []⟩ := by
  unfold notifyEndpoint deserializeSendNotificationRequest
  simp [Json.get, h]

/-- Witness for C9 at the concrete empty body: the endpoint rejects it with
422 and performs no call. -/
theorem missing_message_field_rejected_witness :
    notifyEndpoint "987654321" false (Json.obj []) envSendOk =
      ⟨NotifyEndpointResult.rejected 422, []⟩ :=
  missing_message_field_rejected "987654321" false [] envSendOk rfl

/-- C10: the convenience send used by the one-shot CLI mode always forwards
parse_mode Some("Markdown") and disable_notification false to the advanced
send, so the CLI-mode wire payload always carries parse_mode "Markdown"
and omits disable_notification. -/
theorem cli_send_markdown_default (chat_id message : String)
    (env : TelegramResponse) :
    send_message chat_id message env =
      send_message_advanced chat_id message (some "Markdown") false env ∧
    (run_cli_mode chat_id message env).calls =
      [buildSendMessageRequest chat_id message (some "Markdown") false] ∧
    ((run_cli_mode chat_id message env).calls.map
        (fun r => (serializeSendMessageRequest r).lookup "parse_mode")) =
      [some (Json.str "Markdown")] ∧
    ((run_cli_mode chat_id message env).calls.map
        (fun r => (serializeSendMessageRequest r).lookup "disable_notification")) =
      [none] := by
  refine ⟨rfl, ?_, ?_, ?_⟩ <;>
    · unfold run_cli_mode
      cases hs : send_message chat_id message env <;> rfl
